import Mathlib

set_option autoImplicit false

/-!
# Verification of the Selenium Grid metrics exporter

A shallow embedding of `exporter.py` (gmichels/selenium-grid-exporter).
Python dictionaries are insertion-ordered association lists, Python integers
are `Int`, float arithmetic on gauge values is modelled over `ℚ`, and code
that can raise returns an `Option`/a success flag.  Line numbers in doc
comments refer to `exporter.py`.
-/

namespace GridExporter

/-- Per-browser accumulated statistics, mirroring the Python dictionary
`{'slot_count': 0, 'session_count': 0}` (line 65).  Python integers are
unbounded, hence `Int`. -/
structure NodeStats where
  slot_count : Int
  session_count : Int
  deriving DecidableEq, Repr

/-- The inner `stereotype` object of one stereotype entry; only its
`browserName` field is ever read (line 72). -/
structure Stereotype where
  browserName : String
  deriving DecidableEq, Repr

/-- One element of the parsed `stereotypes` JSON array; line 72 reads
`[0]['stereotype']['browserName']`. -/
structure StereotypeEntry where
  stereotype : Stereotype
  deriving DecidableEq, Repr

/-- One element of the `nodesInfo.nodes` response array.  Each field is
`Option`-valued: `none` models a missing key (a `KeyError` on access); for
`stereotypes`, `none` also covers a value `json.loads` rejects (both raise
on line 72). -/
structure NodeData where
  slotCount : Option Int
  sessionCount : Option Int
  stereotypes : Option (List StereotypeEntry)
  deriving DecidableEq, Repr

/-- A well-formed node record advertising the given browsers in order. -/
def mkNode (browsers : List String) (slots sessions : Int) : NodeData :=
  { slotCount := some slots, sessionCount := some sessions,
    stereotypes := some (browsers.map (fun b => ⟨⟨b⟩⟩)) }

/-- The `data.grid` object of the response (lines 52–55); `none` fields model
missing keys. -/
structure GridData where
  totalSlots : Option Int
  nodeCount : Option Int
  sessionCount : Option Int
  sessionQueueSize : Option Int
  deriving DecidableEq, Repr

/-- The parsed response body.  `grid = none` models `resp_body['data']['grid']`
raising (missing `data` or `grid` key); `nodes = none` models
`resp_body['data']['nodesInfo']['nodes']` raising. -/
structure RespData where
  grid : Option GridData
  nodes : Option (List NodeData)
  deriving DecidableEq, Repr

/-- Outcome of `requests.post` (line 34): `failure` models a raised connection
error or timeout; `mk status body` a returned response, where `body = none`
models a body that `resp.json()` cannot parse. -/
inductive Response where
  | failure : Response
  | mk (status : Nat) (body : Option RespData) : Response
  deriving DecidableEq, Repr

/-- The `all_nodes` dictionary: insertion-ordered key/value pairs, as a
Python `dict`. -/
abbrev Dict : Type := List (String × NodeStats)

/-- `d[k]` lookup: the value of the first entry with key `k` (entries built
by `dictInsert` have unique keys, as a Python dict); `none` is a
`KeyError`. -/
def dictGet? (d : Dict) (k : String) : Option NodeStats :=
  match d with
  | [] => none
  | p :: rest => if p.1 = k then some p.2 else dictGet? rest k

/-- Assignment `d[k] = v` to a key: rewrites every entry carrying key `k`
(at most one for a Python dict), keeping its position. -/
def dictSet (d : Dict) (k : String) (v : NodeStats) : Dict :=
  d.map (fun p => if p.1 = k then (k, v) else p)

/-- `dict.update({k: v})`: replace in place if the key exists, else append
(Python dict insertion order). -/
def dictInsert (d : Dict) (k : String) (v : NodeStats) : Dict :=
  if (dictGet? d k).isSome then dictSet d k v else d ++ [(k, v)]

/-- The keys of the dictionary, in order. -/
def keysOf (d : Dict) : List String := d.map Prod.fst

/-- Line 25: `BROWSERS = ['chrome', 'firefox']`. -/
def BROWSERS : List String := ["chrome", "firefox"]

/-- Line 65: `node_stats = {'slot_count': 0, 'session_count': 0}`. -/
def initStats : NodeStats := { slot_count := 0, session_count := 0 }

/-- Lines 64–68: one zeroed stats dictionary per configured browser
(`node_stats.copy()` gives each browser its own copy, no aliasing). -/
def initAllNodes (browsers : List String) : Dict :=
  browsers.foldl (fun d b => dictInsert d b initStats) []

/-- Line 72: `json.loads(node['stereotypes'])[0]['stereotype']['browserName']`.
`none` when the `stereotypes` key is missing or unparsable or the array is
empty (`[0]` raises `IndexError`). -/
def extractBrowser (n : NodeData) : Option String :=
  n.stereotypes.bind (fun sts => sts.head?.map (fun e => e.stereotype.browserName))

/-- Lines 72–74 for a single node: extract the browser, look it up in
`all_nodes` (`KeyError` when it is not a key), read the node's `slotCount` and
`sessionCount`, and add them to the browser's entry.  `none` models any of
these raising; the local dictionary is then discarded unread, so collapsing
the raise points into one `Option` is observably faithful. -/
def accumNode (d : Dict) (n : NodeData) : Option Dict :=
  (extractBrowser n).bind fun b =>
    (dictGet? d b).bind fun st =>
      n.slotCount.bind fun sc =>
        n.sessionCount.bind fun ssc =>
          some (dictSet d b { slot_count := st.slot_count + sc,
                              session_count := st.session_count + ssc })

/-- Lines 71–74: the accumulation loop over all nodes; a raise at any node
aborts the whole loop. -/
def accumulateNodes (nodes : List NodeData) (d : Dict) : Option Dict :=
  match nodes with
  | [] => some d
  | n :: rest =>
    match accumNode d n with
    | none => none
    | some d1 => accumulateNodes rest d1

/-- The aggregation phase of `generate_node_metrics` (lines 64–74). -/
def aggregate (nodes : List NodeData) (browsers : List String) : Option Dict :=
  accumulateNodes nodes (initAllNodes browsers)

/-- Lines 81–84: usage percentage with the zero-slot guard; Python float
division modelled over `ℚ`. -/
def usagePercent (st : NodeStats) : ℚ :=
  if st.slot_count > 0 then ((st.session_count : ℚ) / (st.slot_count : ℚ)) * 100 else 0

/-- The Prometheus gauges (lines 13–22).  The three node gauges are labelled
families keyed by browser name (the `deployment` label
`selenium-node-{browser}` is determined by the browser label); `none` means
no child with that label exists yet. -/
structure Gauges where
  grid_total_slots : ℚ
  grid_node_count : ℚ
  grid_session_count : ℚ
  grid_session_queue_size : ℚ
  node_slot_count : String → Option ℚ
  node_session_count : String → Option ℚ
  node_usage_percent : String → Option ℚ

/-- The registry at process start: plain gauges read 0, labelled families
have no children. -/
def gauges0 : Gauges :=
  { grid_total_slots := 0, grid_node_count := 0, grid_session_count := 0,
    grid_session_queue_size := 0,
    node_slot_count := fun _ => none,
    node_session_count := fun _ => none,
    node_usage_percent := fun _ => none }

/-- `GAUGE.labels(browser, deployment).set(v)`: create or overwrite the
child. -/
def setLabeled (f : String → Option ℚ) (b : String) (v : ℚ) : String → Option ℚ :=
  fun k => if k = b then some v else f k

/-- Lines 78–85 for one browser: set the slot, session and usage gauges. -/
def publishBrowser (g : Gauges) (b : String) (st : NodeStats) : Gauges :=
  { g with
    node_slot_count := setLabeled g.node_slot_count b (st.slot_count : ℚ),
    node_session_count := setLabeled g.node_session_count b (st.session_count : ℚ),
    node_usage_percent := setLabeled g.node_usage_percent b (usagePercent st) }

/-- Lines 77–85: the publish loop over the configured browsers.  The `Bool`
is `false` when the `all_nodes[browser]` lookup raises (which the
initialization of lines 64–68 in fact rules out); gauges set before such a
raise keep their new values. -/
def publishNodes (browsers : List String) (d : Dict) (g : Gauges) : Gauges × Bool :=
  match browsers with
  | [] => (g, true)
  | b :: rest =>
    match dictGet? d b with
    | none => (g, false)
    | some st => publishNodes rest d (publishBrowser g b st)

/-- Lines 58–85: accumulate, then publish.  A raise during accumulation
leaves every gauge untouched by this function; the `Bool` records whether
the function returned normally (`false` = an exception propagates). -/
def generate_node_metrics (data : List NodeData) (browsers : List String) (g : Gauges) :
    Gauges × Bool :=
  match aggregate data browsers with
  | none => (g, false)
  | some d => publishNodes browsers d g

/-- Lines 45–55: the four grid gauges are set one at a time, so a missing key
raises only after the earlier gauges were already written. -/
def generate_grid_metrics (data : GridData) (g : Gauges) : Gauges × Bool :=
  match data.totalSlots with
  | none => (g, false)
  | some v1 =>
    let g1 := { g with grid_total_slots := (v1 : ℚ) }
    match data.nodeCount with
    | none => (g1, false)
    | some v2 =>
      let g2 := { g1 with grid_node_count := (v2 : ℚ) }
      match data.sessionCount with
      | none => (g2, false)
      | some v3 =>
        let g3 := { g2 with grid_session_count := (v3 : ℚ) }
        match data.sessionQueueSize with
        | none => (g3, false)
        | some v4 => ({ g3 with grid_session_queue_size := (v4 : ℚ) }, true)

/-- Lines 28–42: one poll cycle.  `Response.failure` models `requests.post`
raising; a non-200 status only logs a warning and returns normally (line 42);
a 200 response is parsed and the grid metrics then the node metrics
generated, in that order, any raise propagating with the gauges written so
far kept. -/
def process_metrics (resp : Response) (g : Gauges) : Gauges × Bool :=
  match resp with
  | .failure => (g, false)
  | .mk status body =>
    if status = 200 then
      match body with
      | none => (g, false)
      | some rb =>
        match rb.grid with
        | none => (g, false)
        | some gd =>
          match generate_grid_metrics gd g with
          | (g1, false) => (g1, false)
          | (g1, true) =>
            match rb.nodes with
            | none => (g1, false)
            | some ns => generate_node_metrics ns BROWSERS g1
    else (g, true)

/-- Lines 102–118: the polling loop.  The `try` block encloses the whole
`while True` loop, so a cycle that raises terminates the loop (the handler
logs and the program falls off the end of the script); a cycle that returns
normally is followed by the next.  Given the outcomes of successive fetches,
this returns the final gauge state and the number of cycles that were
started. -/
def runCycles (resps : List Response) (g : Gauges) : Gauges × Nat :=
  match resps with
  | [] => (g, 0)
  | r :: rest =>
    match process_metrics r g with
    | (g1, true) =>
      let p := runCycles rest g1
      (p.1, p.2 + 1)
    | (g1, false) => (g1, 1)

/-- A node whose extracted browser identifier is among the configured
browsers. -/
def recognizedIn (browsers : List String) (n : NodeData) : Bool :=
  match extractBrowser n with
  | none => false
  | some b => decide (b ∈ browsers)

/-- Sum of `slotCount` over the nodes attributed to browser `b`. -/
def slotSum (nodes : List NodeData) (b : String) : Int :=
  ((nodes.filter (fun n => decide (extractBrowser n = some b))).map
    (fun n => n.slotCount.getD 0)).sum

/-- Sum of `sessionCount` over the nodes attributed to browser `b`. -/
def sessSum (nodes : List NodeData) (b : String) : Int :=
  ((nodes.filter (fun n => decide (extractBrowser n = some b))).map
    (fun n => n.sessionCount.getD 0)).sum

/-- Sum of accumulated `slot_count` over all dictionary entries (one entry
per configured kind). -/
def sumSlots (d : Dict) : Int := (d.map (fun p => p.2.slot_count)).sum

/-- Sum of accumulated `session_count` over all dictionary entries. -/
def sumSessions (d : Dict) : Int := (d.map (fun p => p.2.session_count)).sum

/-- A node that the accumulation step (lines 72–74) handles without raising,
relative to the dictionary `d`. -/
def goodNode (d : Dict) (n : NodeData) : Prop :=
  ∃ b, extractBrowser n = some b ∧ (dictGet? d b).isSome ∧
    n.slotCount.isSome ∧ n.sessionCount.isSome

/-- A node advertising the unrecognized browser `safari` (not in `BROWSERS`). -/
def safariNode : NodeData := mkNode ["safari"] 5 1

/-- The end-to-end example response: grid totals 10/2/3/1, a chrome node with
6 slots and 2 sessions, a firefox node with 4 slots and 1 session. -/
def respExample : Response :=
  Response.mk 200 (some
    { grid := some { totalSlots := some 10, nodeCount := some 2,
                     sessionCount := some 3, sessionQueueSize := some 1 },
      nodes := some [mkNode ["chrome"] 6 2, mkNode ["firefox"] 4 1] })

/-- A successful response with grid totals 10/2/3/1 and no nodes. -/
def respEmptyOk : Response :=
  Response.mk 200 (some
    { grid := some { totalSlots := some 10, nodeCount := some 2,
                     sessionCount := some 3, sessionQueueSize := some 1 },
      nodes := some [] })

/-- A successful response with grid totals 7/1/0/0 and no nodes. -/
def respEmptyOk7 : Response :=
  Response.mk 200 (some
    { grid := some { totalSlots := some 7, nodeCount := some 1,
                     sessionCount := some 0, sessionQueueSize := some 0 },
      nodes := some [] })

/-- A 200 response whose grid section is complete but whose `nodesInfo` section
is missing: the access on line 40 raises after the grid gauges were written. -/
def respNodesMissing : Response :=
  Response.mk 200 (some
    { grid := some { totalSlots := some 10, nodeCount := some 2,
                     sessionCount := some 3, sessionQueueSize := some 1 },
      nodes := none })

/-! ## Dictionary lemmas -/

theorem dictGet?_cons (p : String × NodeStats) (rest : Dict) (k : String) :
    dictGet? (p :: rest) k = if p.1 = k then some p.2 else dictGet? rest k := rfl

theorem dictSet_cons (p : String × NodeStats) (rest : Dict) (k : String) (v : NodeStats) :
    dictSet (p :: rest) k v = (if p.1 = k then (k, v) else p) :: dictSet rest k v := rfl

theorem keysOf_cons (p : String × NodeStats) (rest : Dict) :
    keysOf (p :: rest) = p.1 :: keysOf rest := rfl

theorem dictGet?_dictSet_ne (d : Dict) (k k' : String) (v : NodeStats) (h : k' ≠ k) :
    dictGet? (dictSet d k v) k' = dictGet? d k' := by
  induction d with
  | nil => rfl
  | cons p rest ih =>
    by_cases hp : p.1 = k
    · rw [dictSet_cons, if_pos hp, dictGet?_cons, dictGet?_cons, ih,
        if_neg (show ¬((k, v) : String × NodeStats).1 = k' from fun e => h e.symm),
        if_neg (show ¬p.1 = k' from by rw [hp]; exact fun e => h e.symm)]
    · rw [dictSet_cons, if_neg hp, dictGet?_cons, dictGet?_cons, ih]

theorem dictGet?_dictSet_self (d : Dict) (k : String) (v : NodeStats)
    (h : (dictGet? d k).isSome) : dictGet? (dictSet d k v) k = some v := by
  induction d with
  | nil => simp [dictGet?] at h
  | cons p rest ih =>
    by_cases hp : p.1 = k
    · rw [dictSet_cons, if_pos hp, dictGet?_cons, if_pos rfl]
    · rw [dictGet?_cons, if_neg hp] at h
      rw [dictSet_cons, if_neg hp, dictGet?_cons, if_neg hp, ih h]

theorem keysOf_dictSet (d : Dict) (k : String) (v : NodeStats) :
    keysOf (dictSet d k v) = keysOf d := by
  induction d with
  | nil => rfl
  | cons p rest ih =>
    by_cases hp : p.1 = k
    · rw [dictSet_cons, if_pos hp, keysOf_cons, keysOf_cons, ih, hp]
    · rw [dictSet_cons, if_neg hp, keysOf_cons, keysOf_cons, ih]

theorem isSome_dictGet? (d : Dict) (k : String) :
    (dictGet? d k).isSome ↔ k ∈ keysOf d := by
  induction d with
  | nil => simp [dictGet?, keysOf]
  | cons p rest ih =>
    rw [dictGet?_cons, keysOf_cons]
    by_cases hp : p.1 = k
    · simp [hp]
    · rw [if_neg hp, List.mem_cons, ih]
      constructor
      · exact Or.inr
      · rintro (e | hm)
        · exact absurd e.symm hp
        · exact hm

theorem dictSet_of_not_mem (d : Dict) (k : String) (v : NodeStats)
    (h : k ∉ keysOf d) : dictSet d k v = d := by
  induction d with
  | nil => rfl
  | cons p rest ih =>
    rw [keysOf_cons, List.mem_cons, not_or] at h
    rw [dictSet_cons, if_neg (fun e => h.1 e.symm), ih h.2]

theorem dictGet?_append_single (d : Dict) (k k' : String) (v : NodeStats)
    (h : dictGet? d k = none) :
    dictGet? (d ++ [(k, v)]) k' = if k' = k then some v else dictGet? d k' := by
  induction d with
  | nil =>
    by_cases hk : k' = k
    · subst hk; rw [List.nil_append, dictGet?_cons, if_pos rfl]
    · rw [List.nil_append, dictGet?_cons, if_neg (show ¬k = k' from fun e => hk e.symm),
        if_neg hk]
  | cons p rest ih =>
    rw [dictGet?_cons] at h
    by_cases hp : p.1 = k
    · rw [if_pos hp] at h; cases h
    · rw [if_neg hp] at h
      rw [List.cons_append, dictGet?_cons, dictGet?_cons, ih h]
      by_cases hq : p.1 = k'
      · rw [if_pos hq, if_neg (show ¬k' = k from fun e => hp (hq.trans e)), if_pos hq]
      · rw [if_neg hq]
        by_cases hk : k' = k
        · rw [if_pos hk, if_pos hk]
        · rw [if_neg hk, if_neg hk, if_neg hq]

theorem dictGet?_dictInsert (d : Dict) (k k' : String) (v : NodeStats) :
    dictGet? (dictInsert d k v) k' = if k' = k then some v else dictGet? d k' := by
  unfold dictInsert
  by_cases hmem : (dictGet? d k).isSome
  · rw [if_pos hmem]
    by_cases hk : k' = k
    · subst hk; rw [if_pos rfl, dictGet?_dictSet_self d k' v hmem]
    · rw [if_neg hk, dictGet?_dictSet_ne d k k' v hk]
  · rw [if_neg hmem]
    exact dictGet?_append_single d k k' v (Option.not_isSome_iff_eq_none.mp hmem)

theorem keysOf_append (d1 d2 : Dict) : keysOf (d1 ++ d2) = keysOf d1 ++ keysOf d2 := by
  simp [keysOf]

theorem keysOf_dictInsert (d : Dict) (k : String) (v : NodeStats) :
    keysOf (dictInsert d k v) = if k ∈ keysOf d then keysOf d else keysOf d ++ [k] := by
  unfold dictInsert
  by_cases hmem : (dictGet? d k).isSome
  · rw [if_pos hmem, keysOf_dictSet, if_pos ((isSome_dictGet? d k).mp hmem)]
  · rw [if_neg hmem, if_neg (fun hk => hmem ((isSome_dictGet? d k).mpr hk)),
      keysOf_append]
    rfl

/-! ## Initialization lemmas (exporter.py lines 64–68) -/

theorem foldl_insert_lookup (bs : List String) :
    ∀ (d : Dict) (k : String),
      dictGet? (bs.foldl (fun d b => dictInsert d b initStats) d) k =
        if k ∈ bs then some initStats else dictGet? d k := by
  induction bs with
  | nil => intro d k; simp
  | cons b rest ih =>
    intro d k
    rw [List.foldl_cons, ih]
    by_cases hk : k ∈ rest
    · rw [if_pos hk, if_pos (List.mem_cons_of_mem b hk)]
    · rw [if_neg hk, dictGet?_dictInsert]
      by_cases hkb : k = b
      · rw [if_pos hkb, if_pos (List.mem_cons.mpr (Or.inl hkb))]
      · rw [if_neg hkb, if_neg (by rw [List.mem_cons]; exact fun h => h.elim hkb hk)]

theorem init_lookup (bs : List String) (k : String) :
    dictGet? (initAllNodes bs) k = if k ∈ bs then some initStats else none := by
  unfold initAllNodes
  rw [foldl_insert_lookup]
  rfl

theorem mem_keys_init (bs : List String) (k : String) :
    k ∈ keysOf (initAllNodes bs) ↔ k ∈ bs := by
  rw [← isSome_dictGet?, init_lookup]
  by_cases hk : k ∈ bs
  · simp [hk]
  · simp [hk]

theorem keys_foldl_insert_nodup (bs : List String) :
    ∀ d : Dict, (keysOf d).Nodup →
      (keysOf (bs.foldl (fun d b => dictInsert d b initStats) d)).Nodup := by
  induction bs with
  | nil => intro d h; exact h
  | cons b rest ih =>
    intro d h
    rw [List.foldl_cons]
    apply ih
    rw [keysOf_dictInsert]
    by_cases hb : b ∈ keysOf d
    · rw [if_pos hb]; exact h
    · rw [if_neg hb]
      rw [List.nodup_append]
      exact ⟨h, List.nodup_singleton b, by simpa using hb⟩

theorem keys_init_nodup (bs : List String) : (keysOf (initAllNodes bs)).Nodup :=
  keys_foldl_insert_nodup bs [] List.nodup_nil

theorem foldl_insert_values (bs : List String) :
    ∀ d : Dict, (∀ p ∈ d, p.2 = initStats) →
      ∀ p ∈ bs.foldl (fun d b => dictInsert d b initStats) d, p.2 = initStats := by
  induction bs with
  | nil => intro d h; exact h
  | cons b rest ih =>
    intro d h
    rw [List.foldl_cons]
    apply ih
    intro p hp
    unfold dictInsert at hp
    by_cases hmem : (dictGet? d b).isSome
    · rw [if_pos hmem] at hp
      unfold dictSet at hp
      obtain ⟨q, hq, hpq⟩ := List.mem_map.mp hp
      by_cases hq1 : q.1 = b
      · rw [if_pos hq1] at hpq
        rw [← hpq]
      · rw [if_neg hq1] at hpq
        rw [← hpq]
        exact h q hq
    · rw [if_neg hmem] at hp
      rcases List.mem_append.mp hp with h1 | h2
      · exact h p h1
      · rw [List.mem_singleton.mp h2]

theorem init_values (bs : List String) :
    ∀ p ∈ initAllNodes bs, p.2 = initStats :=
  foldl_insert_values bs [] (fun p hp => absurd hp (List.not_mem_nil p))

theorem sumSlots_init (bs : List String) : sumSlots (initAllNodes bs) = 0 := by
  unfold sumSlots
  apply List.sum_eq_zero
  intro x hx
  obtain ⟨p, hp, hpx⟩ := List.mem_map.mp hx
  rw [← hpx, init_values bs p hp]
  rfl

theorem sumSessions_init (bs : List String) : sumSessions (initAllNodes bs) = 0 := by
  unfold sumSessions
  apply List.sum_eq_zero
  intro x hx
  obtain ⟨p, hp, hpx⟩ := List.mem_map.mp hx
  rw [← hpx, init_values bs p hp]
  rfl

/-! ## Accumulation lemmas (exporter.py lines 71–74) -/

theorem accumNode_eq_some (d : Dict) (n : NodeData) (d1 : Dict)
    (h : accumNode d n = some d1) :
    ∃ b st sc ssc, extractBrowser n = some b ∧ dictGet? d b = some st ∧
      n.slotCount = some sc ∧ n.sessionCount = some ssc ∧
      d1 = dictSet d b { slot_count := st.slot_count + sc,
                         session_count := st.session_count + ssc } := by
  unfold accumNode at h
  simp only [Option.bind_eq_some, Option.some.injEq] at h
  obtain ⟨b, hb, st, hst, sc, hsc, ssc, hssc, hd⟩ := h
  exact ⟨b, st, sc, ssc, hb, hst, hsc, hssc, hd.symm⟩

theorem accumNode_some (d : Dict) (n : NodeData) (b : String) (st : NodeStats)
    (sc ssc : Int) (hb : extractBrowser n = some b) (hst : dictGet? d b = some st)
    (hsc : n.slotCount = some sc) (hssc : n.sessionCount = some ssc) :
    accumNode d n = some (dictSet d b { slot_count := st.slot_count + sc,
                                        session_count := st.session_count + ssc }) := by
  unfold accumNode
  simp only [hb, hst, hsc, hssc, Option.some_bind]

theorem good_of_accumNode (d : Dict) (n : NodeData) (d1 : Dict)
    (h : accumNode d n = some d1) : goodNode d n := by
  obtain ⟨b, st, sc, ssc, hb, hst, hsc, hssc, _⟩ := accumNode_eq_some d n d1 h
  exact ⟨b, hb, by rw [hst]; rfl, by rw [hsc]; rfl, by rw [hssc]; rfl⟩

theorem accumNode_of_good (d : Dict) (n : NodeData) (h : goodNode d n) :
    (accumNode d n).isSome := by
  obtain ⟨b, hb, hst, hsc, hssc⟩ := h
  obtain ⟨st, hst'⟩ := Option.isSome_iff_exists.mp hst
  obtain ⟨sc, hsc'⟩ := Option.isSome_iff_exists.mp hsc
  obtain ⟨ssc, hssc'⟩ := Option.isSome_iff_exists.mp hssc
  rw [accumNode_some d n b st sc ssc hb hst' hsc' hssc']
  rfl

theorem goodNode_congr (d1 d2 : Dict) (n : NodeData) (h : keysOf d1 = keysOf d2) :
    goodNode d1 n ↔ goodNode d2 n := by
  unfold goodNode
  constructor
  · rintro ⟨b, hb, hst, h3, h4⟩
    exact ⟨b, hb, by rw [isSome_dictGet?, ← h, ← isSome_dictGet?]; exact hst, h3, h4⟩
  · rintro ⟨b, hb, hst, h3, h4⟩
    exact ⟨b, hb, by rw [isSome_dictGet?, h, ← isSome_dictGet?]; exact hst, h3, h4⟩

theorem keysOf_accumNode (d : Dict) (n : NodeData) (d1 : Dict)
    (h : accumNode d n = some d1) : keysOf d1 = keysOf d := by
  obtain ⟨b, st, sc, ssc, _, _, _, _, hd1⟩ := accumNode_eq_some d n d1 h
  rw [hd1, keysOf_dictSet]

theorem accumulate_cons (n : NodeData) (rest : List NodeData) (d : Dict) :
    accumulateNodes (n :: rest) d =
      match accumNode d n with
      | none => none
      | some d1 => accumulateNodes rest d1 := rfl

theorem keysOf_accumulate (nodes : List NodeData) :
    ∀ d d' : Dict, accumulateNodes nodes d = some d' → keysOf d' = keysOf d := by
  induction nodes with
  | nil =>
    intro d d' h
    rw [show accumulateNodes [] d = some d from rfl] at h
    rw [← Option.some_inj.mp h]
  | cons n rest ih =>
    intro d d' h
    rw [accumulate_cons] at h
    cases hacc : accumNode d n with
    | none => rw [hacc] at h; cases h
    | some d1 =>
      rw [hacc] at h
      rw [ih d1 d' h, keysOf_accumNode d n d1 hacc]

theorem accumulate_isSome_iff (nodes : List NodeData) :
    ∀ d : Dict, (accumulateNodes nodes d).isSome ↔ ∀ n ∈ nodes, goodNode d n := by
  induction nodes with
  | nil => intro d; simp [accumulateNodes]
  | cons n rest ih =>
    intro d
    rw [accumulate_cons]
    cases hacc : accumNode d n with
    | none =>
      simp only [Option.isSome_none]
      constructor
      · intro hf; cases hf
      · intro hall
        have := accumNode_of_good d n (hall n (List.mem_cons_self n rest))
        rw [hacc] at this
        cases this
    | some d1 =>
      rw [ih d1]
      have hkeys : keysOf d1 = keysOf d := keysOf_accumNode d n d1 hacc
      constructor
      · intro hall m hm
        rcases List.mem_cons.mp hm with rfl | hm'
        · exact good_of_accumNode d m d1 hacc
        · exact (goodNode_congr d1 d m hkeys).mp (hall m hm')
      · intro hall m hm
        exact (goodNode_congr d1 d m hkeys).mpr (hall m (List.mem_cons_of_mem n hm))

/-! ## Characterization of the accumulation loop -/

theorem slotSum_cons (n : NodeData) (rest : List NodeData) (b : String) :
    slotSum (n :: rest) b =
      (if extractBrowser n = some b then n.slotCount.getD 0 else 0) + slotSum rest b := by
  unfold slotSum
  rw [List.filter_cons]
  by_cases h : extractBrowser n = some b
  · simp [h]
  · simp [h]

theorem sessSum_cons (n : NodeData) (rest : List NodeData) (b : String) :
    sessSum (n :: rest) b =
      (if extractBrowser n = some b then n.sessionCount.getD 0 else 0) + sessSum rest b := by
  unfold sessSum
  rw [List.filter_cons]
  by_cases h : extractBrowser n = some b
  · simp [h]
  · simp [h]

theorem accumulate_char (nodes : List NodeData) :
    ∀ d : Dict, (∀ n ∈ nodes, goodNode d n) →
      ∃ d', accumulateNodes nodes d = some d' ∧ keysOf d' = keysOf d ∧
        ∀ b, dictGet? d' b = (dictGet? d b).map
          (fun st => { slot_count := st.slot_count + slotSum nodes b,
                       session_count := st.session_count + sessSum nodes b }) := by
  induction nodes with
  | nil =>
    intro d _
    refine ⟨d, rfl, rfl, fun b => ?_⟩
    have h0 : slotSum [] b = 0 := rfl
    have h1 : sessSum [] b = 0 := rfl
    rw [h0, h1]
    cases dictGet? d b <;> simp
  | cons n rest ih =>
    intro d hall
    obtain ⟨b0, hb0, hstS, hscS, hsscS⟩ := hall n (List.mem_cons_self n rest)
    obtain ⟨st, hst⟩ := Option.isSome_iff_exists.mp hstS
    obtain ⟨sc, hsc⟩ := Option.isSome_iff_exists.mp hscS
    obtain ⟨ssc, hssc⟩ := Option.isSome_iff_exists.mp hsscS
    have hacc := accumNode_some d n b0 st sc ssc hb0 hst hsc hssc
    have hkeys1 : keysOf (dictSet d b0 ⟨st.slot_count + sc, st.session_count + ssc⟩) =
        keysOf d := keysOf_dictSet d b0 _
    have hall1 : ∀ m ∈ rest,
        goodNode (dictSet d b0 ⟨st.slot_count + sc, st.session_count + ssc⟩) m :=
      fun m hm => (goodNode_congr _ d m hkeys1).mpr (hall m (List.mem_cons_of_mem n hm))
    obtain ⟨d', hput, hkeys', hlook⟩ := ih _ hall1
    refine ⟨d', ?_, hkeys'.trans hkeys1, fun b => ?_⟩
    · rw [accumulate_cons, hacc]
      exact hput
    · rw [hlook b]
      by_cases hbb : b = b0
      · subst hbb
        rw [dictGet?_dictSet_self d b _ (by rw [hst]; rfl), hst]
        rw [slotSum_cons, sessSum_cons, if_pos hb0, if_pos hb0, hsc, hssc]
        simp only [Option.map_some', Option.getD_some, Option.some.injEq, NodeStats.mk.injEq]
        constructor <;> ring
      · have hne : ¬extractBrowser n = some b := by
          rw [hb0]
          simp only [Option.some.injEq]
          exact fun e => hbb e.symm
        rw [dictGet?_dictSet_ne d b0 b _ hbb]
        rw [slotSum_cons, sessSum_cons, if_neg hne, if_neg hne]
        simp only [zero_add]

/-! ## Extensionality for dictionaries with duplicate-free keys -/

theorem dict_ext (d1 : Dict) :
    ∀ d2 : Dict, keysOf d1 = keysOf d2 → (keysOf d1).Nodup →
      (∀ k, dictGet? d1 k = dictGet? d2 k) → d1 = d2 := by
  induction d1 with
  | nil =>
    intro d2 hk _ _
    cases d2 with
    | nil => rfl
    | cons q rest2 => cases hk
  | cons p rest ih =>
    intro d2 hk hnd hl
    cases d2 with
    | nil => cases hk
    | cons q rest2 =>
      rw [keysOf_cons, keysOf_cons] at hk
      obtain ⟨hpq, hrest⟩ := List.cons_eq_cons.mp hk
      rw [keysOf_cons, List.nodup_cons] at hnd
      obtain ⟨hpnin, hnd'⟩ := hnd
      have h1 := hl p.1
      rw [dictGet?_cons, dictGet?_cons, if_pos rfl, if_pos hpq.symm] at h1
      have hval : p.2 = q.2 := Option.some_inj.mp h1
      have htail : ∀ k, dictGet? rest k = dictGet? rest2 k := by
        intro k
        by_cases hkp : k = p.1
        · have e1 : dictGet? rest k = none := by
            rw [← Option.not_isSome_iff_eq_none, isSome_dictGet?, hkp]
            exact hpnin
          have e2 : dictGet? rest2 k = none := by
            rw [← Option.not_isSome_iff_eq_none, isSome_dictGet?, ← hrest, hkp]
            exact hpnin
          rw [e1, e2]
        · have h2 := hl k
          rw [dictGet?_cons, dictGet?_cons, if_neg (fun e => hkp e.symm),
            if_neg (by rw [← hpq]; exact fun e => hkp e.symm)] at h2
          exact h2
      have : p = q := Prod.ext hpq hval
      rw [this, ih rest2 hrest hnd' htail]

/-! ## Permutation invariance building blocks -/

theorem slotSum_perm (l1 l2 : List NodeData) (h : l1.Perm l2) (b : String) :
    slotSum l1 b = slotSum l2 b :=
  List.Perm.sum_eq ((h.filter _).map _)

theorem sessSum_perm (l1 l2 : List NodeData) (h : l1.Perm l2) (b : String) :
    sessSum l1 b = sessSum l2 b :=
  List.Perm.sum_eq ((h.filter _).map _)

theorem accumulate_perm (nodes1 nodes2 : List NodeData) (d : Dict)
    (hperm : nodes1.Perm nodes2) (hnd : (keysOf d).Nodup) :
    accumulateNodes nodes1 d = accumulateNodes nodes2 d := by
  by_cases hall : ∀ n ∈ nodes1, goodNode d n
  · have hall2 : ∀ n ∈ nodes2, goodNode d n := fun n hn => hall n (hperm.mem_iff.mpr hn)
    obtain ⟨d1, h1, hk1, hl1⟩ := accumulate_char nodes1 d hall
    obtain ⟨d2, h2, hk2, hl2⟩ := accumulate_char nodes2 d hall2
    rw [h1, h2]
    have : d1 = d2 := by
      apply dict_ext d1 d2 (hk1.trans hk2.symm) (by rw [hk1]; exact hnd)
      intro k
      rw [hl1 k, hl2 k, slotSum_perm nodes1 nodes2 hperm k,
        sessSum_perm nodes1 nodes2 hperm k]
    rw [this]
  · have hall2 : ¬ ∀ n ∈ nodes2, goodNode d n :=
      fun h2 => hall (fun n hn => h2 n (hperm.mem_iff.mp hn))
    have e1 : accumulateNodes nodes1 d = none := by
      rw [← Option.not_isSome_iff_eq_none]
      intro hs
      exact hall ((accumulate_isSome_iff nodes1 d).mp hs)
    have e2 : accumulateNodes nodes2 d = none := by
      rw [← Option.not_isSome_iff_eq_none]
      intro hs
      exact hall2 ((accumulate_isSome_iff nodes2 d).mp hs)
    rw [e1, e2]

/-! ## Sums over the accumulator dictionary -/

theorem sumSlots_cons (p : String × NodeStats) (rest : Dict) :
    sumSlots (p :: rest) = p.2.slot_count + sumSlots rest := by
  simp [sumSlots]

theorem sumSessions_cons (p : String × NodeStats) (rest : Dict) :
    sumSessions (p :: rest) = p.2.session_count + sumSessions rest := by
  simp [sumSessions]

theorem sumSlots_dictSet (d : Dict) (k : String) (st v : NodeStats)
    (hnd : (keysOf d).Nodup) (hk : dictGet? d k = some st) :
    sumSlots (dictSet d k v) = sumSlots d - st.slot_count + v.slot_count := by
  induction d with
  | nil => cases hk
  | cons p rest ih =>
    rw [keysOf_cons, List.nodup_cons] at hnd
    obtain ⟨hpnin, hnd'⟩ := hnd
    rw [dictGet?_cons] at hk
    by_cases hp : p.1 = k
    · rw [if_pos hp] at hk
      have hst : st = p.2 := (Option.some_inj.mp hk).symm
      have hrest : dictSet rest k v = rest :=
        dictSet_of_not_mem rest k v (by rw [← hp]; exact hpnin)
      rw [dictSet_cons, if_pos hp, sumSlots_cons, sumSlots_cons, hrest, hst]
      ring
    · rw [if_neg hp] at hk
      rw [dictSet_cons, if_neg hp, sumSlots_cons, sumSlots_cons, ih hnd' hk]
      ring

theorem sumSessions_dictSet (d : Dict) (k : String) (st v : NodeStats)
    (hnd : (keysOf d).Nodup) (hk : dictGet? d k = some st) :
    sumSessions (dictSet d k v) = sumSessions d - st.session_count + v.session_count := by
  induction d with
  | nil => cases hk
  | cons p rest ih =>
    rw [keysOf_cons, List.nodup_cons] at hnd
    obtain ⟨hpnin, hnd'⟩ := hnd
    rw [dictGet?_cons] at hk
    by_cases hp : p.1 = k
    · rw [if_pos hp] at hk
      have hst : st = p.2 := (Option.some_inj.mp hk).symm
      have hrest : dictSet rest k v = rest :=
        dictSet_of_not_mem rest k v (by rw [← hp]; exact hpnin)
      rw [dictSet_cons, if_pos hp, sumSessions_cons, sumSessions_cons, hrest, hst]
      ring
    · rw [if_neg hp] at hk
      rw [dictSet_cons, if_neg hp, sumSessions_cons, sumSessions_cons, ih hnd' hk]
      ring

theorem sum_accumulate (nodes : List NodeData) :
    ∀ d d' : Dict, (keysOf d).Nodup → accumulateNodes nodes d = some d' →
      sumSlots d' = sumSlots d + (nodes.map (fun n => n.slotCount.getD 0)).sum ∧
      sumSessions d' = sumSessions d + (nodes.map (fun n => n.sessionCount.getD 0)).sum := by
  induction nodes with
  | nil =>
    intro d d' _ h
    have hd : d = d' := Option.some_inj.mp h
    simp [← hd]
  | cons n rest ih =>
    intro d d' hnd h
    rw [accumulate_cons] at h
    cases hacc : accumNode d n with
    | none => rw [hacc] at h; cases h
    | some d1 =>
      rw [hacc] at h
      obtain ⟨b, st, sc, ssc, hb, hst, hsc, hssc, hd1⟩ := accumNode_eq_some d n d1 hacc
      have hnd1 : (keysOf d1).Nodup := by rw [hd1, keysOf_dictSet]; exact hnd
      obtain ⟨hs1, hs2⟩ := ih d1 d' hnd1 h
      constructor
      · rw [hs1, hd1, sumSlots_dictSet d b st _ hnd hst, List.map_cons, List.sum_cons, hsc]
        simp only [Option.getD_some]
        ring
      · rw [hs2, hd1, sumSessions_dictSet d b st _ hnd hst, List.map_cons, List.sum_cons,
          hssc]
        simp only [Option.getD_some]
        ring

/-! ## Publish-loop lemmas (exporter.py lines 77–85) -/

theorem publishNodes_cons (b : String) (rest : List String) (d : Dict) (g : Gauges) :
    publishNodes (b :: rest) d g =
      match dictGet? d b with
      | none => (g, false)
      | some st => publishNodes rest d (publishBrowser g b st) := rfl

theorem publishNodes_total (browsers : List String) :
    ∀ (d : Dict) (g : Gauges), (∀ b ∈ browsers, (dictGet? d b).isSome) →
      (publishNodes browsers d g).2 = true := by
  induction browsers with
  | nil => intro d g _; rfl
  | cons b rest ih =>
    intro d g h
    obtain ⟨st, hst⟩ := Option.isSome_iff_exists.mp (h b (List.mem_cons_self b rest))
    rw [publishNodes_cons, hst]
    exact ih d _ (fun b' hb' => h b' (List.mem_cons_of_mem b hb'))

theorem setLabeled_isSome (f : String → Option ℚ) (b k : String) (v : ℚ)
    (h : (f k).isSome) : ((setLabeled f b v) k).isSome := by
  unfold setLabeled
  by_cases hk : k = b
  · rw [if_pos hk]; rfl
  · rw [if_neg hk]; exact h

theorem setLabeled_self (f : String → Option ℚ) (b : String) (v : ℚ) :
    (setLabeled f b v) b = some v := by
  unfold setLabeled
  rw [if_pos rfl]

theorem publishNodes_mono (browsers : List String) :
    ∀ (d : Dict) (g : Gauges) (k : String),
      ((g.node_slot_count k).isSome →
        ((publishNodes browsers d g).1.node_slot_count k).isSome) ∧
      ((g.node_session_count k).isSome →
        ((publishNodes browsers d g).1.node_session_count k).isSome) ∧
      ((g.node_usage_percent k).isSome →
        ((publishNodes browsers d g).1.node_usage_percent k).isSome) := by
  induction browsers with
  | nil => intro d g k; exact ⟨id, id, id⟩
  | cons b rest ih =>
    intro d g k
    cases hst : dictGet? d b with
    | none => rw [publishNodes_cons, hst]; exact ⟨id, id, id⟩
    | some st =>
      rw [publishNodes_cons, hst]
      obtain ⟨m1, m2, m3⟩ := ih d (publishBrowser g b st) k
      refine ⟨fun h => m1 ?_, fun h => m2 ?_, fun h => m3 ?_⟩
      · exact setLabeled_isSome g.node_slot_count b k _ h
      · exact setLabeled_isSome g.node_session_count b k _ h
      · exact setLabeled_isSome g.node_usage_percent b k _ h

theorem publishNodes_sets (browsers : List String) :
    ∀ (d : Dict) (g g' : Gauges), publishNodes browsers d g = (g', true) →
      ∀ b ∈ browsers, (g'.node_slot_count b).isSome ∧ (g'.node_session_count b).isSome ∧
        (g'.node_usage_percent b).isSome := by
  induction browsers with
  | nil => intro d g g' _ b hb; cases hb
  | cons b0 rest ih =>
    intro d g g' h b hb
    cases hst : dictGet? d b0 with
    | none =>
      rw [publishNodes_cons, hst] at h
      have hfalse : false = true := congrArg Prod.snd h
      exact Bool.noConfusion hfalse
    | some st =>
      rw [publishNodes_cons, hst] at h
      have h' : publishNodes rest d (publishBrowser g b0 st) = (g', true) := h
      rcases List.mem_cons.mp hb with rfl | hb'
      · have hg' : g' = (publishNodes rest d (publishBrowser g b st)).1 := by rw [h']
        obtain ⟨m1, m2, m3⟩ := publishNodes_mono rest d (publishBrowser g b st) b
        rw [hg']
        refine ⟨m1 ?_, m2 ?_, m3 ?_⟩
        · rw [show (publishBrowser g b st).node_slot_count =
            setLabeled g.node_slot_count b (st.slot_count : ℚ) from rfl, setLabeled_self]
          rfl
        · rw [show (publishBrowser g b st).node_session_count =
            setLabeled g.node_session_count b (st.session_count : ℚ) from rfl,
            setLabeled_self]
          rfl
        · rw [show (publishBrowser g b st).node_usage_percent =
            setLabeled g.node_usage_percent b (usagePercent st) from rfl, setLabeled_self]
          rfl
      · exact ih d _ g' h' b hb'

/-! ## Node-metrics and cycle-level lemmas -/

theorem aggregate_lookup_isSome (nodes : List NodeData) (bs : List String) (d : Dict)
    (h : aggregate nodes bs = some d) : ∀ b ∈ bs, (dictGet? d b).isSome := by
  intro b hb
  have hk : keysOf d = keysOf (initAllNodes bs) :=
    keysOf_accumulate nodes (initAllNodes bs) d h
  rw [isSome_dictGet?, hk, mem_keys_init]
  exact hb

theorem gnm_of_aggregate_none (nodes : List NodeData) (bs : List String) (g : Gauges)
    (h : aggregate nodes bs = none) : generate_node_metrics nodes bs g = (g, false) := by
  unfold generate_node_metrics
  rw [h]

theorem gnm_of_aggregate_some (nodes : List NodeData) (bs : List String) (g : Gauges)
    (d : Dict) (h : aggregate nodes bs = some d) :
    generate_node_metrics nodes bs g = publishNodes bs d g := by
  unfold generate_node_metrics
  rw [h]

theorem gnm_total (nodes : List NodeData) (bs : List String) (g : Gauges) (d : Dict)
    (h : aggregate nodes bs = some d) : (generate_node_metrics nodes bs g).2 = true := by
  rw [gnm_of_aggregate_some nodes bs g d h]
  exact publishNodes_total bs d g (aggregate_lookup_isSome nodes bs d h)

theorem gnm_false (nodes : List NodeData) (bs : List String) (g : Gauges)
    (h : (generate_node_metrics nodes bs g).2 = false) :
    generate_node_metrics nodes bs g = (g, false) := by
  cases ha : aggregate nodes bs with
  | none => exact gnm_of_aggregate_none nodes bs g ha
  | some d =>
    rw [gnm_total nodes bs g d ha] at h
    exact Bool.noConfusion h

theorem grid_preserves_node (gd : GridData) (g : Gauges) :
    (generate_grid_metrics gd g).1.node_slot_count = g.node_slot_count ∧
    (generate_grid_metrics gd g).1.node_session_count = g.node_session_count ∧
    (generate_grid_metrics gd g).1.node_usage_percent = g.node_usage_percent := by
  obtain ⟨a, b, c, q⟩ := gd
  cases a <;> cases b <;> cases c <;> cases q <;> exact ⟨rfl, rfl, rfl⟩

theorem process_metrics_failure (g : Gauges) :
    process_metrics Response.failure g = (g, false) := rfl

theorem process_metrics_not200 (s : Nat) (b : Option RespData) (g : Gauges) (h : s ≠ 200) :
    process_metrics (Response.mk s b) g = (g, true) := by
  simp only [process_metrics]
  rw [if_neg h]

theorem process_metrics_200 (b : Option RespData) (g : Gauges) :
    process_metrics (Response.mk 200 b) g =
      match b with
      | none => (g, false)
      | some rb =>
        match rb.grid with
        | none => (g, false)
        | some gd =>
          match generate_grid_metrics gd g with
          | (g1, false) => (g1, false)
          | (g1, true) =>
            match rb.nodes with
            | none => (g1, false)
            | some ns => generate_node_metrics ns BROWSERS g1 := by
  simp only [process_metrics]
  rw [if_pos trivial]

theorem process_false_preserves_node (r : Response) (g : Gauges)
    (h : (process_metrics r g).2 = false) :
    (process_metrics r g).1.node_slot_count = g.node_slot_count ∧
    (process_metrics r g).1.node_session_count = g.node_session_count ∧
    (process_metrics r g).1.node_usage_percent = g.node_usage_percent := by
  cases r with
  | failure => exact ⟨rfl, rfl, rfl⟩
  | mk status body =>
    by_cases hs : status = 200
    · subst hs
      rw [process_metrics_200] at h ⊢
      cases body with
      | none => exact ⟨rfl, rfl, rfl⟩
      | some rb =>
        obtain ⟨gridField, nodesField⟩ := rb
        cases gridField with
        | none => exact ⟨rfl, rfl, rfl⟩
        | some gd =>
          dsimp only at h ⊢
          obtain ⟨hp1, hp2, hp3⟩ := grid_preserves_node gd g
          cases hgg : generate_grid_metrics gd g with
          | mk g1 flag =>
            rw [hgg] at hp1 hp2 hp3 h
            cases flag with
            | false => exact ⟨hp1, hp2, hp3⟩
            | true =>
              cases nodesField with
              | none => exact ⟨hp1, hp2, hp3⟩
              | some ns =>
                have h2 : (generate_node_metrics ns BROWSERS g1).2 = false := h
                have h3 := gnm_false ns BROWSERS g1 h2
                have e1 : (generate_node_metrics ns BROWSERS g1).1 = g1 := by rw [h3]
                refine ⟨?_, ?_, ?_⟩
                · show (generate_node_metrics ns BROWSERS g1).1.node_slot_count =
                    g.node_slot_count
                  rw [e1, hp1]
                · show (generate_node_metrics ns BROWSERS g1).1.node_session_count =
                    g.node_session_count
                  rw [e1, hp2]
                · show (generate_node_metrics ns BROWSERS g1).1.node_usage_percent =
                    g.node_usage_percent
                  rw [e1, hp3]
    · rw [process_metrics_not200 status body g hs] at h
      exact Bool.noConfusion (show true = false from h)

/-! ## Claim theorems -/

/-- C8: the usage computation of exporter.py lines 81–85 is zero-division safe:
for an accumulated slot count of 0 the published usage is 0 whatever the session
count (the division is never evaluated), and for a positive slot count the usage
equals `100 * sessionCount / slotCount`. -/
theorem c8_zero_division_safety (st : NodeStats) :
    (st.slot_count = 0 → usagePercent st = 0) ∧
    (st.slot_count > 0 →
      usagePercent st = 100 * (st.session_count : ℚ) / (st.slot_count : ℚ)) := by
  constructor
  · intro h
    unfold usagePercent
    rw [if_neg (by rw [h]; exact lt_irrefl 0)]
  · intro h
    unfold usagePercent
    rw [if_pos h]
    ring

/-- Witness for C8 at the concrete stats (0 slots, 5 sessions) and (4 slots,
1 session). -/
theorem c8_zero_division_safety_witness :
    usagePercent ⟨0, 5⟩ = 0 ∧
    usagePercent ⟨4, 1⟩ = 100 * (((⟨4, 1⟩ : NodeStats).session_count : ℚ)) /
      (((⟨4, 1⟩ : NodeStats).slot_count : ℚ)) :=
  ⟨(c8_zero_division_safety ⟨0, 5⟩).1 rfl, (c8_zero_division_safety ⟨4, 1⟩).2 (by decide)⟩

/-- C10: the per-kind accumulators are independent: accumulating one node, which
line 72 attributes to browser `b`, changes no other key's aggregate (the zeroed
initial aggregates are per-kind copies, not aliases). -/
theorem c10_frame_property (d : Dict) (n : NodeData) (b : String) (d' : Dict)
    (hacc : accumNode d n = some d') (hb : extractBrowser n = some b) :
    ∀ k, k ≠ b → dictGet? d' k = dictGet? d k := by
  intro k hk
  obtain ⟨b', st, sc, ssc, hb', hst, hsc, hssc, hd'⟩ := accumNode_eq_some d n d' hacc
  have hbb : b' = b := Option.some_inj.mp (hb'.symm.trans hb)
  subst hbb
  rw [hd', dictGet?_dictSet_ne d b' k _ hk]

/-- Witness for C10: a chrome node leaves the firefox aggregate untouched. -/
theorem c10_frame_property_witness :
    dictGet? [("chrome", ⟨6, 2⟩), ("firefox", ⟨0, 0⟩)] "firefox" =
      dictGet? (initAllNodes BROWSERS) "firefox" :=
  c10_frame_property (initAllNodes BROWSERS) (mkNode ["chrome"] 6 2) "chrome"
    [("chrome", ⟨6, 2⟩), ("firefox", ⟨0, 0⟩)] (by decide) (by decide) "firefox" (by decide)

/-- C6: the browser identifier is read from the first stereotype entry
(line 72 indexes `[0]`), and a node advertising `[firefox, chrome]` is attributed
entirely to firefox — chrome keeps its zero aggregate. -/
theorem c6_first_capability :
    (∀ (n : NodeData) (e : StereotypeEntry) (rest2 : List StereotypeEntry),
      n.stereotypes = some (e :: rest2) →
        extractBrowser n = some e.stereotype.browserName) ∧
    (∀ s c : Int,
      aggregate [mkNode ["firefox", "chrome"] s c] BROWSERS =
        some [("chrome", ⟨0, 0⟩), ("firefox", ⟨s, c⟩)]) := by
  constructor
  · intro n e rest2 h
    unfold extractBrowser
    rw [h]
    rfl
  · intro s c
    have h1 : accumNode (initAllNodes BROWSERS) (mkNode ["firefox", "chrome"] s c) =
        some (dictSet (initAllNodes BROWSERS) "firefox"
          ⟨initStats.slot_count + s, initStats.session_count + c⟩) :=
      accumNode_some _ _ "firefox" initStats s c rfl (by decide) rfl rfl
    show accumulateNodes [mkNode ["firefox", "chrome"] s c] (initAllNodes BROWSERS) = _
    rw [accumulate_cons, h1]
    show some (dictSet (initAllNodes BROWSERS) "firefox"
      ⟨initStats.slot_count + s, initStats.session_count + c⟩) = _
    have e2 : dictSet (initAllNodes BROWSERS) "firefox"
        ⟨initStats.slot_count + s, initStats.session_count + c⟩ =
        [("chrome", ⟨0, 0⟩),
         ("firefox", ⟨initStats.slot_count + s, initStats.session_count + c⟩)] := by
      rw [show initAllNodes BROWSERS = [("chrome", initStats), ("firefox", initStats)]
        from by decide]
      rfl
    rw [e2]
    have e3 : initStats.slot_count + s = s := zero_add s
    have e4 : initStats.session_count + c = c := zero_add c
    rw [e3, e4]

/-- Witness for C6 at a concrete node: `[firefox, chrome]` with 9 slots and
3 sessions. -/
theorem c6_first_capability_witness :
    extractBrowser (mkNode ["firefox", "chrome"] 9 3) = some "firefox" ∧
    aggregate [mkNode ["firefox", "chrome"] 9 3] BROWSERS =
      some [("chrome", ⟨0, 0⟩), ("firefox", ⟨9, 3⟩)] :=
  ⟨c6_first_capability.1 (mkNode ["firefox", "chrome"] 9 3) ⟨⟨"firefox"⟩⟩ [⟨⟨"chrome"⟩⟩] rfl,
   c6_first_capability.2 9 3⟩

/-- C7: aggregation always yields one aggregate per configured kind — the empty
node list against `{chrome, firefox}` gives both zero aggregates (with usage 0),
every successful aggregation has an entry for every configured kind, and a
successful node-metrics pass publishes all three gauges for every configured
kind. -/
theorem c7_stable_series :
    (aggregate [] ["chrome", "firefox"] = some [("chrome", ⟨0, 0⟩), ("firefox", ⟨0, 0⟩)] ∧
      usagePercent ⟨0, 0⟩ = 0) ∧
    (∀ (nodes : List NodeData) (bs : List String) (d : Dict),
      aggregate nodes bs = some d → ∀ b ∈ bs, (dictGet? d b).isSome) ∧
    (∀ (nodes : List NodeData) (bs : List String) (g g' : Gauges),
      generate_node_metrics nodes bs g = (g', true) →
      ∀ b ∈ bs, (g'.node_slot_count b).isSome ∧ (g'.node_session_count b).isSome ∧
        (g'.node_usage_percent b).isSome) := by
  refine ⟨⟨by decide, by decide⟩, aggregate_lookup_isSome, ?_⟩
  intro nodes bs g g' h b hb
  cases ha : aggregate nodes bs with
  | none =>
    rw [gnm_of_aggregate_none nodes bs g ha] at h
    exact Bool.noConfusion (congrArg Prod.snd h)
  | some d =>
    rw [gnm_of_aggregate_some nodes bs g d ha] at h
    exact publishNodes_sets bs d g g' h b hb

/-- Witness for C7: the always-present entry and the published gauges at concrete
inputs. -/
theorem c7_stable_series_witness :
    (dictGet? [("chrome", ⟨0, 0⟩), ("firefox", ⟨0, 0⟩)] "chrome").isSome ∧
    (((generate_node_metrics [] BROWSERS gauges0).1.node_slot_count "firefox").isSome ∧
      ((generate_node_metrics [] BROWSERS gauges0).1.node_session_count "firefox").isSome ∧
      ((generate_node_metrics [] BROWSERS gauges0).1.node_usage_percent "firefox").isSome) :=
  ⟨c7_stable_series.2.1 [] ["chrome", "firefox"] [("chrome", ⟨0, 0⟩), ("firefox", ⟨0, 0⟩)]
      (by decide) "chrome" (by decide),
   c7_stable_series.2.2 [] BROWSERS gauges0 (generate_node_metrics [] BROWSERS gauges0).1
      rfl "firefox" (by decide)⟩

/-- C1 (counterexample): a node whose browser identifier (`safari`) is outside
`BROWSERS` does not make aggregation "complete without raising an error" — the
`all_nodes[browser]` lookup on line 73 raises, aggregation yields no result and
`generate_node_metrics` aborts. -/
theorem c1_counterexample :
    aggregate [safariNode] BROWSERS = none ∧
    (generate_node_metrics [safariNode] BROWSERS gauges0).2 = false := by
  constructor
  · decide
  · decide

/-- C1 (amended): a node whose extracted browser identifier is outside the
configured kinds is indeed never attributed to any default kind and changes no
aggregate — but not by silent exclusion: the lookup on line 73 raises, so the
whole aggregation yields nothing and the node-metrics stage returns with the
gauges untouched and the exception propagating (a cycle abort, not a per-node
skip). -/
theorem c1_unknown_kind_aborts (nodes : List NodeData) (bs : List String) (g : Gauges)
    (n : NodeData) (b : String) (hn : n ∈ nodes) (hb : extractBrowser n = some b)
    (hnb : b ∉ bs) :
    aggregate nodes bs = none ∧ generate_node_metrics nodes bs g = (g, false) := by
  have hagg : aggregate nodes bs = none := by
    rw [← Option.not_isSome_iff_eq_none]
    intro hs
    obtain ⟨b', hb', hst, _, _⟩ :=
      (accumulate_isSome_iff nodes (initAllNodes bs)).mp hs n hn
    have hbb : b' = b := Option.some_inj.mp (hb'.symm.trans hb)
    rw [isSome_dictGet?, mem_keys_init] at hst
    exact hnb (hbb ▸ hst)
  exact ⟨hagg, gnm_of_aggregate_none nodes bs g hagg⟩

/-- Witness for C1's amended theorem at the safari node. -/
theorem c1_unknown_kind_aborts_witness :
    aggregate [safariNode] BROWSERS = none ∧
    generate_node_metrics [safariNode] BROWSERS gauges0 = (gauges0, false) :=
  c1_unknown_kind_aborts [safariNode] BROWSERS gauges0 safariNode "safari"
    (List.mem_singleton.mpr rfl) (by decide) (by decide)

/-- C4 (counterexample): with an unrecognized-kind node in the input there is no
aggregate at all — the claimed equality of sums has no witness because the
aggregation raises instead of excluding the node. -/
theorem c4_counterexample :
    ¬ ∃ d', aggregate [safariNode] BROWSERS = some d' ∧
      sumSlots d' = ((([safariNode] : List NodeData).filter
        (recognizedIn BROWSERS)).map (fun n => n.slotCount.getD 0)).sum := by
  rintro ⟨d', hd', _⟩
  rw [show aggregate [safariNode] BROWSERS = none from by decide] at hd'
  cases hd'

/-- C4 (amended): whenever the aggregation loop completes — which forces every
input node's identifier to be recognized — the per-kind `slot_count` values sum
to the `slotCount` sum over the recognized nodes (= all nodes), and likewise for
sessions; a node with an unrecognized identifier instead makes the whole
aggregation raise, so it never contributes to any total. -/
theorem c4_aggregation_sums (nodes : List NodeData) (bs : List String) (d' : Dict)
    (h : aggregate nodes bs = some d') :
    nodes.filter (recognizedIn bs) = nodes ∧
    sumSlots d' =
      ((nodes.filter (recognizedIn bs)).map (fun n => n.slotCount.getD 0)).sum ∧
    sumSessions d' =
      ((nodes.filter (recognizedIn bs)).map (fun n => n.sessionCount.getD 0)).sum := by
  have hiso : (accumulateNodes nodes (initAllNodes bs)).isSome = true := by
    unfold aggregate at h
    rw [h]
    rfl
  have hfilter : nodes.filter (recognizedIn bs) = nodes := by
    apply List.filter_eq_self.mpr
    intro n hn
    obtain ⟨b, hb, hst, _, _⟩ :=
      (accumulate_isSome_iff nodes (initAllNodes bs)).mp hiso n hn
    rw [isSome_dictGet?, mem_keys_init] at hst
    show recognizedIn bs n = true
    unfold recognizedIn
    rw [hb]
    exact decide_eq_true hst
  obtain ⟨h1, h2⟩ := sum_accumulate nodes (initAllNodes bs) d' (keys_init_nodup bs) h
  refine ⟨hfilter, ?_, ?_⟩
  · rw [hfilter, h1, sumSlots_init, zero_add]
  · rw [hfilter, h2, sumSessions_init, zero_add]

/-- Witness for C4's amended theorem at the two-node example. -/
theorem c4_aggregation_sums_witness :
    ([mkNode ["chrome"] 6 2, mkNode ["firefox"] 4 1].filter (recognizedIn BROWSERS) =
      [mkNode ["chrome"] 6 2, mkNode ["firefox"] 4 1]) ∧
    sumSlots [("chrome", ⟨6, 2⟩), ("firefox", ⟨4, 1⟩)] =
      (([mkNode ["chrome"] 6 2, mkNode ["firefox"] 4 1].filter
        (recognizedIn BROWSERS)).map (fun n => n.slotCount.getD 0)).sum ∧
    sumSessions [("chrome", ⟨6, 2⟩), ("firefox", ⟨4, 1⟩)] =
      (([mkNode ["chrome"] 6 2, mkNode ["firefox"] 4 1].filter
        (recognizedIn BROWSERS)).map (fun n => n.sessionCount.getD 0)).sum :=
  c4_aggregation_sums [mkNode ["chrome"] 6 2, mkNode ["firefox"] 4 1] BROWSERS
    [("chrome", ⟨6, 2⟩), ("firefox", ⟨4, 1⟩)] (by decide)

/-- C9: aggregation is order-independent.  For any permutation of the node list
(in particular when every node carries a recognized identifier, as the claim
assumes) the aggregation result — hence every per-kind slot count, session count
and derived usage — is identical.  The recognized-kinds hypothesis is not even
needed: an input with a bad node fails identically in every order. -/
theorem c9_order_independence (nodes nodes' : List NodeData) (bs : List String)
    (hperm : nodes.Perm nodes')
    (_hrec : ∀ n ∈ nodes, recognizedIn bs n = true) :
    aggregate nodes bs = aggregate nodes' bs := by
  unfold aggregate
  exact accumulate_perm nodes nodes' (initAllNodes bs) hperm (keys_init_nodup bs)

/-- Witness for C9: swapping the two example nodes leaves the aggregate
unchanged. -/
theorem c9_order_independence_witness :
    aggregate [mkNode ["firefox"] 4 1, mkNode ["chrome"] 6 2] BROWSERS =
      aggregate [mkNode ["chrome"] 6 2, mkNode ["firefox"] 4 1] BROWSERS :=
  c9_order_independence [mkNode ["firefox"] 4 1, mkNode ["chrome"] 6 2]
    [mkNode ["chrome"] 6 2, mkNode ["firefox"] 4 1] BROWSERS
    (List.Perm.swap (mkNode ["chrome"] 6 2) (mkNode ["firefox"] 4 1) [])
    (by decide)

/-- C5: the end-to-end example.  From any prior gauge state, one cycle on the
example response returns normally and publishes grid gauges (10, 2, 3, 1), the
chrome aggregate (6, 2, 100/3 %) and the firefox aggregate (4, 1, 25 %). -/
theorem c5_end_to_end (g0 : Gauges) :
    (process_metrics respExample g0).2 = true ∧
    (process_metrics respExample g0).1.grid_total_slots = 10 ∧
    (process_metrics respExample g0).1.grid_node_count = 2 ∧
    (process_metrics respExample g0).1.grid_session_count = 3 ∧
    (process_metrics respExample g0).1.grid_session_queue_size = 1 ∧
    (process_metrics respExample g0).1.node_slot_count "chrome" = some 6 ∧
    (process_metrics respExample g0).1.node_session_count "chrome" = some 2 ∧
    (process_metrics respExample g0).1.node_usage_percent "chrome" = some (100 / 3) ∧
    (process_metrics respExample g0).1.node_slot_count "firefox" = some 4 ∧
    (process_metrics respExample g0).1.node_session_count "firefox" = some 1 ∧
    (process_metrics respExample g0).1.node_usage_percent "firefox" = some 25 := by
  refine ⟨rfl, rfl, rfl, rfl, rfl, rfl, rfl, ?_, rfl, rfl, ?_⟩
  · show some (usagePercent ⟨0 + 6, 0 + 2⟩) = some (100 / 3)
    have h : usagePercent ⟨0 + 6, 0 + 2⟩ = 100 / 3 := by
      unfold usagePercent
      rw [if_pos (by norm_num)]
      norm_num
    rw [h]
  · show some (usagePercent ⟨0 + 4, 0 + 1⟩) = some 25
    have h : usagePercent ⟨0 + 4, 0 + 1⟩ = 25 := by
      unfold usagePercent
      rw [if_pos (by norm_num)]
      norm_num
    rw [h]

/-- C2 (counterexample): a TransportError of the connection-failure/timeout form
terminates the polling loop: with fetch outcomes success, connection failure,
success, only two cycles start — the third never runs, because the `try` of
lines 102–118 wraps the whole `while` loop and the handler falls off the end of
the script. -/
theorem c2_counterexample :
    (runCycles [respEmptyOk, Response.failure, respEmptyOk] gauges0).2 = 2 := rfl

/-- C2 (amended): only the non-2xx form of TransportError is cycle-local:
a non-200 status is handled on line 42, the cycle returns normally, and the loop
proceeds — after outcomes success, non-2xx, success, the third cycle runs and
publishes.  A raised connection failure or timeout terminates the loop with its
cycle, and so does any ParseError: an unparsable 200 body ends the loop at once,
and in general every cycle that raises (`process_metrics` returning `false`,
which covers every ParseError form — unparsable body, missing section, missing
field) is the last cycle the loop starts; after success, ParseError, success,
only two cycles start. -/
theorem c2_cycle_isolation (s : Nat) (b : Option RespData) (g : Gauges) (hs : s ≠ 200) :
    process_metrics (Response.mk s b) g = (g, true) ∧
    (∀ rest : List Response, runCycles (Response.mk s b :: rest) g =
      ((runCycles rest g).1, (runCycles rest g).2 + 1)) ∧
    (∀ rest : List Response, runCycles (Response.failure :: rest) g = (g, 1)) ∧
    (∀ rest : List Response, runCycles (Response.mk 200 none :: rest) g = (g, 1)) ∧
    (∀ (r : Response) (rest : List Response) (g1 : Gauges),
      process_metrics r g = (g1, false) → runCycles (r :: rest) g = (g1, 1)) ∧
    (runCycles [respEmptyOk, Response.mk 500 none, respEmptyOk7] gauges0).2 = 3 ∧
    (runCycles [respEmptyOk, Response.mk 500 none, respEmptyOk7]
      gauges0).1.grid_total_slots = 7 ∧
    (runCycles [respEmptyOk, Response.mk 200 none, respEmptyOk7] gauges0).2 = 2 := by
  have e := process_metrics_not200 s b g hs
  refine ⟨e, ?_, fun rest => rfl, fun rest => rfl, ?_, rfl, rfl, rfl⟩
  · intro rest
    show (match process_metrics (Response.mk s b) g with
      | (g1, true) =>
        let p := runCycles rest g1
        (p.1, p.2 + 1)
      | (g1, false) => (g1, 1)) = _
    rw [e]
  · intro r rest g1 h
    show (match process_metrics r g with
      | (g2, true) =>
        let p := runCycles rest g2
        (p.1, p.2 + 1)
      | (g2, false) => (g2, 1)) = _
    rw [h]

/-- Witness for C2's amended theorem at status 500, with the general
raise-terminates conjunct applied to the ParseError cycle of an unparsable 200
body. -/
theorem c2_cycle_isolation_witness :
    process_metrics (Response.mk 500 none) gauges0 = (gauges0, true) ∧
    runCycles [Response.mk 200 none, respEmptyOk] gauges0 = (gauges0, 1) ∧
    (runCycles [respEmptyOk, Response.mk 500 none, respEmptyOk7] gauges0).2 = 3 :=
  ⟨(c2_cycle_isolation 500 none gauges0 (by decide)).1,
   (c2_cycle_isolation 500 none gauges0 (by decide)).2.2.2.2.1 (Response.mk 200 none)
     [respEmptyOk] gauges0 rfl,
   (c2_cycle_isolation 500 none gauges0 (by decide)).2.2.2.2.2.1⟩

/-- C3 (counterexample): publishing is not all-or-nothing: a cycle whose node
section is missing fails (the exception propagates) after the four grid gauges
were already written — `selenium_grid_total_slots` has moved from 0 to 10 in a
failed cycle. -/
theorem c3_counterexample :
    (process_metrics respNodesMissing gauges0).2 = false ∧
    (process_metrics respNodesMissing gauges0).1.grid_total_slots = 10 ∧
    gauges0.grid_total_slots = 0 :=
  ⟨rfl, rfl, rfl⟩

/-- C3 (amended): no gauge changes when the cycle fails before the first gauge
write — a raised request, a non-2xx status, an unparsable body, or a missing
data/grid section — and every failed cycle leaves the three node-gauge families
unchanged; but a ParseError arising after the grid writes begin (e.g. a missing
node section) leaves the grid gauges already overwritten, so publication is
only prefix-atomic, not all-or-nothing. -/
theorem c3_failure_boundaries (g : Gauges) :
    ((process_metrics Response.failure g).1 = g) ∧
    (∀ (s : Nat) (b : Option RespData), s ≠ 200 →
      (process_metrics (Response.mk s b) g).1 = g) ∧
    ((process_metrics (Response.mk 200 none) g).1 = g) ∧
    (∀ ns : Option (List NodeData),
      (process_metrics (Response.mk 200 (some ⟨none, ns⟩)) g).1 = g) ∧
    (∀ r : Response, (process_metrics r g).2 = false →
      (process_metrics r g).1.node_slot_count = g.node_slot_count ∧
      (process_metrics r g).1.node_session_count = g.node_session_count ∧
      (process_metrics r g).1.node_usage_percent = g.node_usage_percent) := by
  refine ⟨rfl, ?_, rfl, fun ns => rfl, fun r h => process_false_preserves_node r g h⟩
  intro s b hs
  rw [process_metrics_not200 s b g hs]

/-- Witness for C3's amended theorem at status 404 and at a raised request. -/
theorem c3_failure_boundaries_witness :
    (process_metrics (Response.mk 404 none) gauges0).1 = gauges0 ∧
    (process_metrics Response.failure gauges0).1.node_slot_count =
      gauges0.node_slot_count :=
  ⟨(c3_failure_boundaries gauges0).2.1 404 none (by decide),
   ((c3_failure_boundaries gauges0).2.2.2.2 Response.failure rfl).1⟩

end GridExporter
